import Mathlib

set_option maxRecDepth 100000

/-!
Shallow embedding of `src/generate_workflow_diagram.py` (the whole repository).

The script draws a FIDO2 workflow diagram with matplotlib: a title, 18 step
boxes laid out from literal coordinate constants, 13 hand-authored arrows,
three phase headings, two decision labels and a six-entry legend, in English
or Chinese, and `main` writes the two rendered diagrams to `images/`.

The embedding keeps the source's names and literal constants.  Pure layout
data (coordinates, colors, texts) becomes Lean values over `ℚ` and `String`;
the process-wide matplotlib font state (`plt.rcParams['font.sans-serif']`)
becomes an explicit `List String` threaded through the renderer; the system
font catalog consulted by `setup_chinese_font` becomes a `FontEnv` record of
the external queries the function makes; filesystem side effects of `main`
become an explicit effect trace.
-/

namespace WorkflowDiagram

/-- The color dictionary `colors` of `create_fido2_workflow_diagram`. -/
def colors (key : String) : String :=
  if key = "init" then "#E3F2FD"
  else if key = "registration" then "#F3E5F5"
  else if key = "pin_setup" then "#FFF3E0"
  else if key = "auth" then "#E8F5E8"
  else if key = "error" then "#FFEBEE"
  else if key = "success" then "#E8F5E8"
  else if key = "border" then "#1976D2"
  else ""

/-- The Chinese step list (the `language == 'zh'` branch). -/
def steps_zh : List String :=
  [ "1. 设备初始化，创建CA的公钥、私钥和证书",
    "2. 创建生成凭据的公钥、私钥和基于CA证书的凭据证书",
    "3. 创建PIN通信的公钥私钥",
    "4. 客户端请求MakeCredential",
    "5. 设备检测是否支持PIN，若是则检测是否已经设置PIN",
    "6. 若未设置PIN，则返回错误码，告诉client需要设置PIN",
    "7. 客户端发送getKeyAgreement获取密钥交换信息，计算共享密钥",
    "8. 客户端使用共享密钥对用户输入密码进行加密，将加密后的密码和自己的公钥信息一并发送给设备",
    "9. 设备收到setPIN请求后，使用客户端发送过来的公钥信息生成共享密钥，使用共享密钥对加密过的PIN码进行解密，然后记录PIN码的hash值",
    "10. 客户端发送getPINToken请求，设备使用共享密钥对发送过来的加密过的pinHash进行解密，并与本地记录的pinHash进行对比验证，若匹配则返回使用共享密钥加密过的pinToken",
    "11. 这时设备已经完成了PIN码的设置和pinToken的获取，若设备不支持PIN，则没有6~10的步骤",
    "12. 继续接着步骤5，若设备支持PIN并且PIN已经设置，则根据客户端的请求对pinToken进行校验，如果pinToken校验失败，则返回PIN码错误信息",
    "13. 设备不支持PIN，或者pinToken校验成功后，设备开始创建凭证，创建凭证前设备会通过一定的方式弹出认证UI，让用户决定是否允许创建凭证",
    "14. 用户允许后，设备开始创建凭证信息并将凭证信息发送给客户端，然后本地存储一份。凭据信息包含证书、公钥和随机生成的凭据ID",
    "15. 客户端请求GetAssertion认证，设备根据客户端传递过来的凭据ID查找本地是否存在对应的凭据信息",
    "16. 若不存在，则返回凭据不存在的错误信息",
    "17. 若存在，则对token、rp等信息进行简单校验，然后将客户端传递过来的clientDataHash、rp信息和本地存储的凭据相关信息一并发送给客户端，并对这些数据进行签名",
    "18. 客户端收到设备发送的Assertion数据，使用设备的公钥进行校验，然后对发送过来的凭证信息进行对比认证" ]

/-- The English step list (the `else` branch of the language test). -/
def steps_en : List String :=
  [ "1. Device initialization, create CA public key, private key, and certificate",
    "2. Create credential public key, private key and credential certificate based on CA certificate",
    "3. Create PIN communication public/private key pair",
    "4. Client requests MakeCredential",
    "5. Device checks if PIN is supported, if yes then checks if PIN is already set",
    "6. If PIN is not set, return error code, telling client PIN setup is required",
    "7. Client sends getKeyAgreement to get key exchange information, calculate shared key",
    "8. Client encrypts user input password with shared key, sends encrypted password and public key info to device",
    "9. Device receives setPIN request, uses client's public key to generate shared key, decrypts encrypted PIN with shared key, then records PIN hash value",
    "10. Client sends getPINToken request, device decrypts encrypted pinHash with shared key, compares with locally stored pinHash, if match returns shared key encrypted pinToken",
    "11. Device has completed PIN setup and pinToken acquisition, if device doesn't support PIN, steps 6-10 are skipped",
    "12. Continue from step 5, if device supports PIN and PIN is set, validate pinToken per client request, if validation fails return PIN error",
    "13. Device doesn't support PIN, or pinToken validation succeeds, device starts creating credential, before creating credential device shows authentication UI for user consent",
    "14. After user allows, device creates credential info and sends to client, then stores locally. Credential info includes certificate, public key, and randomly generated credential ID",
    "15. Client requests GetAssertion authentication, device looks up credential info by credential ID passed from client",
    "16. If not found, return credential not found error",
    "17. If found, validate token, rp info, then send clientDataHash, rp info from client and locally stored credential info to client, and sign this data",
    "18. Client receives Assertion data from device, verifies with device's public key, then compares received credential info for authentication" ]

/-- The title string: `if language == 'zh'` picks Chinese, anything else English. -/
def titleFor (language : String) : String :=
  if language = "zh" then "FIDO2 设备工作流程（18步详细版）"
  else "FIDO2 Device Workflow (18-Step Detailed Version)"

/-- The step list: the same `language == 'zh'` test as the title. -/
def stepsFor (language : String) : List String :=
  if language = "zh" then steps_zh else steps_en

/-- The three phase headings.  Note the test direction: the source writes
`"Phase N: ..." if language == 'en' else "..."`, so every language other
than `'en'` gets the Chinese heading. -/
def phaseLabelsFor (language : String) : List String :=
  [ if language = "en" then "Phase 1: Device Initialization" else "第一阶段：设备初始化",
    if language = "en" then "Phase 2: Credential Registration" else "第二阶段：凭据注册",
    if language = "en" then "Phase 3: Authentication" else "第三阶段：身份验证" ]

/-- The two decision labels, also selected by `language == 'en'`. -/
def decisionLabelsFor (language : String) : List String :=
  [ if language = "en" then "PIN Support Decision" else "PIN支持决策",
    if language = "en" then "Credential Lookup" else "凭据查找" ]

/-- The six legend labels of `legend_elements`, also selected by `language == 'en'`. -/
def legendLabelsFor (language : String) : List String :=
  [ if language = "en" then "Initialization" else "初始化",
    if language = "en" then "Registration" else "注册",
    if language = "en" then "PIN Setup" else "PIN设置",
    if language = "en" then "Authentication" else "认证",
    if language = "en" then "Success" else "成功",
    if language = "en" then "Error" else "错误" ]

/-! ### Layout constants (all literal in the source) -/

def y_start : ℚ := 14
def step_height : ℚ := 0.7
def y_pin : ℚ := y_start - 2 * step_height
def y_pin_not_set : ℚ := y_pin - step_height
def y_pin_complete : ℚ := y_pin_not_set - 5 * step_height
def y_pin_validation : ℚ := y_pin_complete - step_height
def y_user_auth : ℚ := y_pin_validation - step_height
def y_cred_creation : ℚ := y_user_auth - step_height
def y_auth_start : ℚ := y_start
def y_lookup : ℚ := y_auth_start - step_height
def y_not_found : ℚ := y_lookup - step_height

/-- `ax.set_xlim(0, 12)`. -/
def xlim : ℚ × ℚ := (0, 12)

/-- `ax.set_ylim(0, 16)`. -/
def ylim : ℚ × ℚ := (0, 16)

/-- One `FancyBboxPatch` call: lower-left corner `(x, y)`, size `(w, h)`,
fill color and the step text drawn centred in it. -/
structure Box where
  x : ℚ
  y : ℚ
  w : ℚ
  h : ℚ
  facecolor : String
  text : String
deriving DecidableEq

def defaultBox : Box :=
  { x := 0, y := 0, w := 0, h := 0, facecolor := "", text := "" }

/-- One `ConnectionPatch` call: start and end anchor coordinates. -/
structure Arrow where
  start : ℚ × ℚ
  stop : ℚ × ℚ
deriving DecidableEq

def defaultArrow : Arrow := { start := (0, 0), stop := (0, 0) }

/-- The 18 `FancyBboxPatch` calls of `create_fido2_workflow_diagram`, in draw
order, with the loops over `range(3)`, `steps[6:10]` and `steps[16:18]`
unrolled.  Every box has width 3 and height 0.5; its lower-left corner is the
first argument of the source call. -/
def boxesFor (steps : List String) : List Box :=
  [ -- Phase 1 loop, i = 0, 1, 2 (steps 1-3)
    { x := 0.5, y := y_start - 0 * step_height - 0.25, w := 3, h := 0.5,
      facecolor := colors "init", text := steps.getD 0 "" },
    { x := 0.5, y := y_start - 1 * step_height - 0.25, w := 3, h := 0.5,
      facecolor := colors "init", text := steps.getD 1 "" },
    { x := 0.5, y := y_start - 2 * step_height - 0.25, w := 3, h := 0.5,
      facecolor := colors "init", text := steps.getD 2 "" },
    -- Step 4
    { x := 4.5, y := y_start - 0.25, w := 3, h := 0.5,
      facecolor := colors "registration", text := steps.getD 3 "" },
    -- Step 5
    { x := 4.5, y := y_start - step_height - 0.25, w := 3, h := 0.5,
      facecolor := colors "registration", text := steps.getD 4 "" },
    -- Step 6 (PIN not set)
    { x := 1.5, y := y_pin_not_set - 0.25, w := 3, h := 0.5,
      facecolor := colors "error", text := steps.getD 5 "" },
    -- PIN setup loop over steps[6:10], i = 0..3 (steps 7-10)
    { x := 7.5, y := y_pin_not_set - 1 * step_height - 0.25, w := 3, h := 0.5,
      facecolor := colors "pin_setup", text := steps.getD 6 "" },
    { x := 7.5, y := y_pin_not_set - 2 * step_height - 0.25, w := 3, h := 0.5,
      facecolor := colors "pin_setup", text := steps.getD 7 "" },
    { x := 7.5, y := y_pin_not_set - 3 * step_height - 0.25, w := 3, h := 0.5,
      facecolor := colors "pin_setup", text := steps.getD 8 "" },
    { x := 7.5, y := y_pin_not_set - 4 * step_height - 0.25, w := 3, h := 0.5,
      facecolor := colors "pin_setup", text := steps.getD 9 "" },
    -- Step 11
    { x := 4.5, y := y_pin_complete - 0.25, w := 3, h := 0.5,
      facecolor := colors "pin_setup", text := steps.getD 10 "" },
    -- Step 12
    { x := 4.5, y := y_pin_validation - 0.25, w := 3, h := 0.5,
      facecolor := colors "registration", text := steps.getD 11 "" },
    -- Step 13
    { x := 4.5, y := y_user_auth - 0.25, w := 3, h := 0.5,
      facecolor := colors "registration", text := steps.getD 12 "" },
    -- Step 14
    { x := 4.5, y := y_cred_creation - 0.25, w := 3, h := 0.5,
      facecolor := colors "success", text := steps.getD 13 "" },
    -- Step 15
    { x := 8.5, y := y_auth_start - 0.25, w := 3, h := 0.5,
      facecolor := colors "auth", text := steps.getD 14 "" },
    -- Step 16 (credential not found)
    { x := 6.5, y := y_not_found - 0.25, w := 3, h := 0.5,
      facecolor := colors "error", text := steps.getD 15 "" },
    -- Success loop over steps[16:18], i = 0..1 (steps 17-18)
    { x := 10.5, y := y_not_found - 1 * step_height - 0.25, w := 3, h := 0.5,
      facecolor := colors "success", text := steps.getD 16 "" },
    { x := 10.5, y := y_not_found - 2 * step_height - 0.25, w := 3, h := 0.5,
      facecolor := colors "success", text := steps.getD 17 "" } ]

/-- The 13 `ConnectionPatch` calls `arrow1` .. `arrow13` of the source, in
order, with the source's literal coordinate expressions. -/
def arrowList : List Arrow :=
  [ { start := (3.5, y_start - 1.5), stop := (4.5, y_start) },
    { start := (7.5, y_cred_creation), stop := (8.5, y_auth_start) },
    { start := (6, y_start - 0.25), stop := (6, y_start - step_height + 0.25) },
    { start := (6, y_start - 2 * step_height - 0.25), stop := (6, y_pin + 0.25) },
    { start := (4.5, y_pin), stop := (3, y_pin_not_set) },
    { start := (3, y_pin_not_set - 0.25),
      stop := (7.5, y_pin_not_set - step_height + 0.25) },
    { start := (9, y_pin_not_set - 5 * step_height + 0.25),
      stop := (6, y_pin_complete - 0.25) },
    { start := (6, y_pin_complete - 0.25), stop := (6, y_pin_validation + 0.25) },
    { start := (6, y_pin_validation - 0.25), stop := (6, y_user_auth + 0.25) },
    { start := (6, y_user_auth - 0.25), stop := (6, y_cred_creation + 0.25) },
    { start := (8.5, y_lookup), stop := (8, y_not_found) },
    { start := (8, y_not_found - 0.25),
      stop := (10.5, y_not_found - step_height + 0.25) },
    { start := (12, y_not_found - step_height - 0.25),
      stop := (12, y_not_found - 2 * step_height + 0.25) } ]

/-! ### Font setup (`setup_chinese_font`) -/

/-- The external environment `setup_chinese_font` consults: the platform
test, `os.path.exists`, whether `fm.fontManager.addfont` succeeds, and
`fm.findfont` (`none` models the lookup raising). -/
structure FontEnv where
  isWindows : Bool
  pathExists : String → Bool
  addfontOk : String → Bool
  findfont : String → Option String

/-- The candidate family-name list `chinese_fonts`. -/
def chinese_fonts : List String :=
  ["SimHei", "Microsoft YaHei", "SimSun", "KaiTi", "FangSong", "Arial Unicode MS"]

/-- The Windows candidate path list `font_paths`. -/
def windows_font_paths : List String :=
  [ "C:/Windows/Fonts/simhei.ttf",
    "C:/Windows/Fonts/msyh.ttc",
    "C:/Windows/Fonts/simsun.ttc",
    "C:/Windows/Fonts/simkai.ttf",
    "C:/Windows/Fonts/simfang.ttf" ]

/-- `os.path.splitext(os.path.basename(path))[0]`: the part after the last
slash, with the last dot-extension removed. -/
def basenameNoExt (p : String) : String :=
  let base := (p.splitOn "/").getLastD p
  let parts := base.splitOn "."
  if parts.length ≤ 1 then base else String.intercalate "." parts.dropLast

/-- The Windows loop: the first candidate path that exists and whose
`addfont` does not raise is loaded and its basename prepended; a path whose
`addfont` raises is skipped. -/
def windowsChoice (env : FontEnv) : Option String :=
  (windows_font_paths.find? fun p => env.pathExists p && env.addfontOk p).map basenameNoExt

/-- The family-name loop: the first family for which `fm.findfont` does not
raise is prepended.  The source guard `font_path != fm.rcParams['font.sans-serif']`
compares a `str` with a `list`, which is always unequal in Python, so the
guard always passes. -/
def familyChoice (env : FontEnv) : Option String :=
  chinese_fonts.find? fun f => (env.findfont f).isSome

/-- The font name `setup_chinese_font` prepends, if any: the Windows path
loop runs only on Windows and falls through to the family loop. -/
def fontChoice (env : FontEnv) : Option String :=
  if env.isWindows then (windowsChoice env).orElse fun _ => familyChoice env
  else familyChoice env

/-- `setup_chinese_font`: prepends the chosen font to the global
`font.sans-serif` list and reports whether a Chinese font was found. -/
def setup_chinese_font (env : FontEnv) (fonts : List String) : List String × Bool :=
  match fontChoice env with
  | some f => (f :: fonts, true)
  | none => (fonts, false)

/-- Deduplication keeping first occurrences, accumulator of names seen. -/
def prefDedupAux : List String → List String → List String
  | _, [] => []
  | seen, f :: rest =>
    if f ∈ seen then prefDedupAux seen rest
    else f :: prefDedupAux (f :: seen) rest

/-- The font-preference order the text renderer consumes: matplotlib tries
the `font.sans-serif` list in order and a repeated family adds nothing, so
rendering depends on the list only through its first-occurrence order. -/
def prefDedup (l : List String) : List String := prefDedupAux [] l

/-! ### The diagram -/

/-- Everything one call of `create_fido2_workflow_diagram` draws, plus the
font-preference order in force while drawing (which determines how the text
is rasterised). -/
structure Diagram where
  effectiveFonts : List String
  title : String
  stepTexts : List String
  phaseLabels : List String
  decisionLabels : List String
  legendLabels : List String
  boxes : List Box
  arrows : List Arrow
deriving DecidableEq

/-- The drawing pass of `create_fido2_workflow_diagram`, after the font
setup: every rendered element as a function of the language and of the
global font list in force. -/
def renderDiagram (language : String) (fonts : List String) : Diagram :=
  { effectiveFonts := prefDedup fonts
    title := titleFor language
    stepTexts := stepsFor language
    phaseLabels := phaseLabelsFor language
    decisionLabels := decisionLabelsFor language
    legendLabels := legendLabelsFor language
    boxes := boxesFor (stepsFor language)
    arrows := arrowList }

/-- The global font list after the conditional `setup_chinese_font()` call
at the top of `create_fido2_workflow_diagram`. -/
def fontsAfter (language : String) (env : FontEnv) (fonts : List String) : List String :=
  if language = "zh" then (setup_chinese_font env fonts).1 else fonts

/-- `create_fido2_workflow_diagram(language)`: runs the font setup when
`language == 'zh'`, then draws.  Returns the diagram and the global font
list the call leaves behind. -/
def create_fido2_workflow_diagram (language : String) (env : FontEnv)
    (fonts : List String) : Diagram × List String :=
  (renderDiagram language (fontsAfter language env fonts),
   fontsAfter language env fonts)

/-! ### `save_diagram` and `main` as an effect trace -/

/-- A filesystem side effect of `main` (stdout prints are not modelled). -/
inductive Effect where
  | makedirs (path : String) (existOk : Bool)
  | savefig (filename : String) (dpi : ℕ) (bboxTight : Bool) (facecolor : String)
  | closeFig
deriving DecidableEq

/-- `save_diagram(fig, filename, dpi=300)`: one `savefig` with
`bbox_inches='tight'` and `facecolor='white'`.  `main` always calls it with
the default dpi of 300. -/
def save_diagram (filename : String) (dpi : ℕ) : Effect :=
  Effect.savefig filename dpi true "white"

/-- Is the effect a file write? -/
def Effect.isWrite : Effect → Bool
  | Effect.savefig _ _ _ _ => true
  | _ => false

/-- `main()`: creates `images` with `exist_ok=True`, renders English then
Chinese threading the global font state, saves each to its fixed path and
closes each figure.  Returns the two diagrams and the effect trace. -/
def main (env : FontEnv) (fonts : List String) :
    (Diagram × Diagram) × List Effect :=
  let en := create_fido2_workflow_diagram "en" env fonts
  let zh := create_fido2_workflow_diagram "zh" env en.2
  ((en.1, zh.1),
   [ Effect.makedirs "images" true,
     save_diagram "images/fido2_workflow_en.png" 300,
     Effect.closeFig,
     save_diagram "images/fido2_workflow_zh.png" 300,
     Effect.closeFig ])

/-! ### Helper predicates for the layout claims -/

/-- Two axis-aligned rectangles share interior area. -/
def rectsOverlap (b c : Box) : Prop :=
  b.x < c.x + c.w ∧ c.x < b.x + b.w ∧ b.y < c.y + c.h ∧ c.y < b.y + b.h

/-- The box lies inside the canvas extent set by `set_xlim`/`set_ylim`. -/
def boxInCanvas (b : Box) : Prop :=
  xlim.1 ≤ b.x ∧ b.x + b.w ≤ xlim.2 ∧ ylim.1 ≤ b.y ∧ b.y + b.h ≤ ylim.2

/-- A concrete environment in which no Chinese font is found. -/
def defaultEnv : FontEnv :=
  { isWindows := false
    pathExists := fun _ => false
    addfontOk := fun _ => false
    findfont := fun _ => none }

/-- A concrete non-Windows environment in which `fm.findfont` resolves the
family `SimHei`. -/
def simheiEnv : FontEnv :=
  { isWindows := false
    pathExists := fun _ => false
    addfontOk := fun _ => false
    findfont := fun f =>
      if f = "SimHei" then some "/usr/share/fonts/simhei.ttf" else none }

/-! ## Claims -/

/-- C1: for each of the two supported language tags ('en' and 'zh'), the list
of step-label strings resolved by `create_fido2_workflow_diagram` has length
exactly 18, and every one of the 18 entries is rendered in exactly one box. -/
theorem C1_eighteen_steps_each_in_one_box (env : FontEnv) (s : List String) :
    ((create_fido2_workflow_diagram "en" env s).1.stepTexts.length = 18 ∧
      (create_fido2_workflow_diagram "en" env s).1.stepTexts.all
        (fun t => ((create_fido2_workflow_diagram "en" env s).1.boxes.filter
          (fun b => b.text == t)).length == 1) = true) ∧
    ((create_fido2_workflow_diagram "zh" env s).1.stepTexts.length = 18 ∧
      (create_fido2_workflow_diagram "zh" env s).1.stepTexts.all
        (fun t => ((create_fido2_workflow_diagram "zh" env s).1.boxes.filter
          (fun b => b.text == t)).length == 1) = true) :=
  ⟨⟨rfl, rfl⟩, ⟨rfl, rfl⟩⟩

/-- C5: every invocation of `create_fido2_workflow_diagram`, for any language
tag, draws exactly 13 directional arrows, and the arrow list is the fixed
constant list of independently specified anchor-coordinate pairs. -/
theorem C5_thirteen_fixed_arrows (language : String) (env : FontEnv)
    (s : List String) :
    (create_fido2_workflow_diagram language env s).1.arrows = arrowList ∧
    (create_fido2_workflow_diagram language env s).1.arrows.length = 13 :=
  ⟨rfl, rfl⟩

/-- C6: one run of `main` first creates the `images` directory (with
`exist_ok`, so an existing directory is fine), and its file writes are
exactly the two savefig calls `images/fido2_workflow_en.png` and
`images/fido2_workflow_zh.png`, each at 300 DPI with a tight bounding box
and white background — and nothing else. -/
theorem C6_main_writes_two_files (env : FontEnv) (s : List String) :
    (main env s).2.head? = some (Effect.makedirs "images" true) ∧
    (main env s).2.filter Effect.isWrite =
      [Effect.savefig "images/fido2_workflow_en.png" 300 true "white",
       Effect.savefig "images/fido2_workflow_zh.png" 300 true "white"] :=
  ⟨rfl, rfl⟩

/-- C9: the renderer invoked with 'en' resolves step-text entry 4 (index 3)
to exactly "4. Client requests MakeCredential" and renders it in the
fourth box; invoked with 'zh' it resolves and renders the Chinese
translation of that sentence as entry 4. -/
theorem C9_step_four_text (env : FontEnv) (s : List String) :
    (create_fido2_workflow_diagram "en" env s).1.stepTexts.getD 3 "" =
        "4. Client requests MakeCredential" ∧
    ((create_fido2_workflow_diagram "en" env s).1.boxes.getD 3 defaultBox).text =
        "4. Client requests MakeCredential" ∧
    (create_fido2_workflow_diagram "zh" env s).1.stepTexts.getD 3 "" =
        "4. 客户端请求MakeCredential" ∧
    ((create_fido2_workflow_diagram "zh" env s).1.boxes.getD 3 defaultBox).text =
        "4. 客户端请求MakeCredential" :=
  ⟨rfl, rfl, rfl, rfl⟩

/-- C2 counterexample: the claim says every rendered label falls back to
English for an unsupported tag, but with language 'fr' the phase headings
come out Chinese, not English. -/
theorem C2_counterexample_phase_labels :
    (create_fido2_workflow_diagram "fr" defaultEnv []).1.phaseLabels ≠
      phaseLabelsFor "en" := by
  decide

/-- C2 amended: for every language tag other than 'en' and 'zh', the title
and the 18 step texts resolve to English, while the phase headings, the
decision labels and the legend labels resolve to Chinese; no error is
raised (the renderer is total). -/
theorem C2_amended_fallback (language : String) (h1 : language ≠ "en")
    (h2 : language ≠ "zh") (env : FontEnv) (s : List String) :
    (create_fido2_workflow_diagram language env s).1.title = titleFor "en" ∧
    (create_fido2_workflow_diagram language env s).1.stepTexts = stepsFor "en" ∧
    (create_fido2_workflow_diagram language env s).1.phaseLabels = phaseLabelsFor "zh" ∧
    (create_fido2_workflow_diagram language env s).1.decisionLabels = decisionLabelsFor "zh" ∧
    (create_fido2_workflow_diagram language env s).1.legendLabels = legendLabelsFor "zh" := by
  simp [create_fido2_workflow_diagram, renderDiagram, titleFor, stepsFor,
    phaseLabelsFor, decisionLabelsFor, legendLabelsFor, h1, h2]

/-- C2 witness: the amended fallback at the concrete unsupported tag 'fr'. -/
theorem C2_amended_fallback_witness :
    ("fr" : String) ≠ "en" ∧ ("fr" : String) ≠ "zh" ∧
    ((create_fido2_workflow_diagram "fr" defaultEnv []).1.title = titleFor "en" ∧
     (create_fido2_workflow_diagram "fr" defaultEnv []).1.stepTexts = stepsFor "en" ∧
     (create_fido2_workflow_diagram "fr" defaultEnv []).1.phaseLabels = phaseLabelsFor "zh" ∧
     (create_fido2_workflow_diagram "fr" defaultEnv []).1.decisionLabels = decisionLabelsFor "zh" ∧
     (create_fido2_workflow_diagram "fr" defaultEnv []).1.legendLabels = legendLabelsFor "zh") :=
  ⟨by decide, by decide,
   C2_amended_fallback "fr" (by decide) (by decide) defaultEnv []⟩

/-- C10: the language fallback is inconsistent across label kinds — for any
tag other than 'en' and 'zh' the title and step texts come out English
(their branch tests `language == 'zh'`) while the three phase headings, the
two decision labels and the six legend labels come out Chinese (their
branches test `language == 'en'`). -/
theorem C10_mixed_fallback (language : String) (h1 : language ≠ "en")
    (h2 : language ≠ "zh") (env : FontEnv) (s : List String) :
    (create_fido2_workflow_diagram language env s).1.title =
        "FIDO2 Device Workflow (18-Step Detailed Version)" ∧
    (create_fido2_workflow_diagram language env s).1.stepTexts = steps_en ∧
    (create_fido2_workflow_diagram language env s).1.phaseLabels =
        ["第一阶段：设备初始化", "第二阶段：凭据注册", "第三阶段：身份验证"] ∧
    (create_fido2_workflow_diagram language env s).1.decisionLabels =
        ["PIN支持决策", "凭据查找"] ∧
    (create_fido2_workflow_diagram language env s).1.legendLabels =
        ["初始化", "注册", "PIN设置", "认证", "成功", "错误"] := by
  simp [create_fido2_workflow_diagram, renderDiagram, titleFor, stepsFor,
    phaseLabelsFor, decisionLabelsFor, legendLabelsFor, h1, h2]

/-- C10 witness: the mixed fallback at the concrete unsupported tag 'de'. -/
theorem C10_mixed_fallback_witness :
    ("de" : String) ≠ "en" ∧ ("de" : String) ≠ "zh" ∧
    ((create_fido2_workflow_diagram "de" defaultEnv []).1.title =
        "FIDO2 Device Workflow (18-Step Detailed Version)" ∧
     (create_fido2_workflow_diagram "de" defaultEnv []).1.stepTexts = steps_en ∧
     (create_fido2_workflow_diagram "de" defaultEnv []).1.phaseLabels =
        ["第一阶段：设备初始化", "第二阶段：凭据注册", "第三阶段：身份验证"] ∧
     (create_fido2_workflow_diagram "de" defaultEnv []).1.decisionLabels =
        ["PIN支持决策", "凭据查找"] ∧
     (create_fido2_workflow_diagram "de" defaultEnv []).1.legendLabels =
        ["初始化", "注册", "PIN设置", "认证", "成功", "错误"]) :=
  ⟨by decide, by decide,
   C10_mixed_fallback "de" (by decide) (by decide) defaultEnv []⟩

/-- C3 counterexample: arrow 6 (index 5) does not originate at the step-6
box's right-bottom corner — it starts at x = 3, the box's horizontal
centre, while the right edge is at x = 4.5. -/
theorem C3_counterexample_origin :
    ((create_fido2_workflow_diagram "en" defaultEnv []).1.arrows.getD 5 defaultArrow).start ≠
      (((create_fido2_workflow_diagram "en" defaultEnv []).1.boxes.getD 5 defaultBox).x +
        ((create_fido2_workflow_diagram "en" defaultEnv []).1.boxes.getD 5 defaultBox).w,
       ((create_fido2_workflow_diagram "en" defaultEnv []).1.boxes.getD 5 defaultBox).y) := by
  show (((3 : ℚ), y_pin_not_set - 0.25) : ℚ × ℚ) ≠ ((1.5 : ℚ) + 3, y_pin_not_set - 0.25)
  simp only [ne_eq, Prod.mk.injEq, not_and]
  intro h
  norm_num at h

/-- C3 amended: the arrow from the "PIN not set" box (step 6) to the first
PIN-setup box (step 7) originates at the step-6 box's bottom-centre anchor
and terminates at the step-7 box's left-top anchor. -/
theorem C3_amended_anchors (language : String) (env : FontEnv) (s : List String) :
    ((create_fido2_workflow_diagram language env s).1.arrows.getD 5 defaultArrow).start =
      (((create_fido2_workflow_diagram language env s).1.boxes.getD 5 defaultBox).x +
        ((create_fido2_workflow_diagram language env s).1.boxes.getD 5 defaultBox).w / 2,
       ((create_fido2_workflow_diagram language env s).1.boxes.getD 5 defaultBox).y) ∧
    ((create_fido2_workflow_diagram language env s).1.arrows.getD 5 defaultArrow).stop =
      (((create_fido2_workflow_diagram language env s).1.boxes.getD 6 defaultBox).x,
       ((create_fido2_workflow_diagram language env s).1.boxes.getD 6 defaultBox).y +
        ((create_fido2_workflow_diagram language env s).1.boxes.getD 6 defaultBox).h) := by
  constructor
  · show (((3 : ℚ), y_pin_not_set - 0.25) : ℚ × ℚ) =
      ((1.5 : ℚ) + 3 / 2, y_pin_not_set - 0.25)
    norm_num
  · show (((7.5 : ℚ), y_pin_not_set - step_height + 0.25) : ℚ × ℚ) =
      ((7.5 : ℚ), (y_pin_not_set - 1 * step_height - 0.25) + 0.5)
    norm_num
    ring

/-- C4 counterexample: the step-17 box (index 16) is not inside the canvas:
its right edge sits at x = 13.5 while `set_xlim` caps the canvas at 12. -/
theorem C4_counterexample_out_of_canvas :
    ¬ boxInCanvas
        ((create_fido2_workflow_diagram "en" defaultEnv []).1.boxes.getD 16 defaultBox) ∧
    ((create_fido2_workflow_diagram "en" defaultEnv []).1.boxes.getD 16 defaultBox).x +
      ((create_fido2_workflow_diagram "en" defaultEnv []).1.boxes.getD 16 defaultBox).w
        = 13.5 ∧
    xlim.2 = 12 := by
  refine ⟨?_, ?_, rfl⟩
  · show ¬ boxInCanvas
      { x := 10.5, y := y_not_found - 1 * step_height - 0.25, w := 3, h := 0.5,
        facecolor := colors "success", text := steps_en.getD 16 "" }
    simp only [boxInCanvas, xlim, ylim, not_and]
    intro _ h
    norm_num at h
  · show (10.5 : ℚ) + 3 = 13.5
    norm_num

set_option maxHeartbeats 4000000 in
theorem boxesFor_layout (steps : List String) :
    (boxesFor steps).Pairwise (fun b c => ¬ rectsOverlap b c) ∧
    ((boxesFor steps).take 16).Forall boxInCanvas ∧
    ((boxesFor steps).drop 16).Forall
      (fun b => xlim.1 ≤ b.x ∧ ylim.1 ≤ b.y ∧ b.y + b.h ≤ ylim.2 ∧
        xlim.2 < b.x + b.w) := by
  unfold boxesFor
  norm_num [List.pairwise_cons, List.Forall, rectsOverlap, boxInCanvas,
    xlim, ylim, colors, y_start, step_height, y_pin, y_pin_not_set,
    y_pin_complete, y_pin_validation, y_user_auth, y_cred_creation,
    y_auth_start, y_lookup, y_not_found]

/-- C4 amended: for both supported languages no two distinct step boxes
overlap, every box respects the left, bottom and top canvas bounds, and
every box except the two success-path boxes (steps 17 and 18, indices 16
and 17) lies entirely within the canvas; those two boxes overrun the right
edge x = 12. -/
theorem C4_amended_layout (env : FontEnv) (s : List String) :
    ((create_fido2_workflow_diagram "en" env s).1.boxes.Pairwise
        (fun b c => ¬ rectsOverlap b c) ∧
     (create_fido2_workflow_diagram "zh" env s).1.boxes.Pairwise
        (fun b c => ¬ rectsOverlap b c)) ∧
    (((create_fido2_workflow_diagram "en" env s).1.boxes.take 16).Forall boxInCanvas ∧
     ((create_fido2_workflow_diagram "zh" env s).1.boxes.take 16).Forall boxInCanvas) ∧
    (((create_fido2_workflow_diagram "en" env s).1.boxes.drop 16).Forall
        (fun b => xlim.1 ≤ b.x ∧ ylim.1 ≤ b.y ∧ b.y + b.h ≤ ylim.2 ∧
          xlim.2 < b.x + b.w) ∧
     ((create_fido2_workflow_diagram "zh" env s).1.boxes.drop 16).Forall
        (fun b => xlim.1 ≤ b.x ∧ ylim.1 ≤ b.y ∧ b.y + b.h ≤ ylim.2 ∧
          xlim.2 < b.x + b.w)) :=
  ⟨⟨(boxesFor_layout (stepsFor "en")).1, (boxesFor_layout (stepsFor "zh")).1⟩,
   ⟨(boxesFor_layout (stepsFor "en")).2.1, (boxesFor_layout (stepsFor "zh")).2.1⟩,
   ⟨(boxesFor_layout (stepsFor "en")).2.2, (boxesFor_layout (stepsFor "zh")).2.2⟩⟩

theorem prefDedup_cons_cons (f : String) (s : List String) :
    prefDedup (f :: f :: s) = prefDedup (f :: s) := by
  simp [prefDedup, prefDedupAux]

theorem fontsAfter_idem_dedup (language : String) (env : FontEnv) (s : List String) :
    prefDedup (fontsAfter language env (fontsAfter language env s)) =
      prefDedup (fontsAfter language env s) := by
  by_cases h : language = "zh"
  · subst h
    cases hc : fontChoice env with
    | none => simp [fontsAfter, setup_chinese_font, hc]
    | some f => simp [fontsAfter, setup_chinese_font, hc, prefDedup_cons_cons]
  · simp [fontsAfter, h]

/-- C7: rendering the same language twice in a row is deterministic — the
second invocation, starting from the global font state the first one left
behind, draws exactly the same diagram, with no change to the font
environment between runs. -/
theorem C7_deterministic_rerun (language : String) (env : FontEnv) (s : List String) :
    (create_fido2_workflow_diagram language env
        ((create_fido2_workflow_diagram language env s).2)).1 =
      (create_fido2_workflow_diagram language env s).1 := by
  simp only [create_fido2_workflow_diagram, renderDiagram, Diagram.mk.injEq,
    and_true, true_and]
  exact fontsAfter_idem_dedup language env s

/-- C8 counterexample: the two invocations do share mutable state — with a
system that resolves the SimHei family, the zh invocation prepends it to
the process-wide font list, and an en invocation started from that mutated
list draws a different diagram than one started from the clean list. -/
theorem C8_counterexample_shared_font_state :
    (create_fido2_workflow_diagram "zh" simheiEnv ["DejaVu Sans"]).2 ≠
      ["DejaVu Sans"] ∧
    (create_fido2_workflow_diagram "en" simheiEnv
        ((create_fido2_workflow_diagram "zh" simheiEnv ["DejaVu Sans"]).2)).1 ≠
      (create_fido2_workflow_diagram "en" simheiEnv ["DejaVu Sans"]).1 := by
  decide

/-- C8 amended: the zh invocation mutates the global font-preference list,
which the renderer reads, so the two invocations do share mutable state;
but in `main`'s actual order — English first, Chinese second — each
language's diagram equals the diagram of rendering that language alone from
the initial state, because the en invocation leaves the state untouched. -/
theorem C8_amended_order_insensitive (env : FontEnv) (s : List String) :
    (main env s).1.1 = (create_fido2_workflow_diagram "en" env s).1 ∧
    (main env s).1.2 = (create_fido2_workflow_diagram "zh" env s).1 :=
  ⟨rfl, rfl⟩

end WorkflowDiagram
